import Mathlib

/-!
Verification development for the equipment-tracker service.

The TypeScript source operates on IEEE-754 doubles.  The comparisons the
service performs (`<`, `>`, `<=`, `>=`, strict equality, truthiness) are
modelled exactly on a type `JsNum` of JavaScript numeric values
(NaN, the two infinities, and finite values represented as rationals);
rounding of finite arithmetic is idealised as exact rational arithmetic.
Transcendental functions (the Haversine great-circle distance built from
Math.sin / Math.cos / Math.atan2) are not rational; every service that
calls the distance computation is therefore parameterised by the distance
function `dist`, and no theorem below depends on its numeric values beyond
explicit hypotheses about them.  Timestamps are `Date.getTime()`
millisecond values, modelled as `Int`.
-/

namespace EquipmentTracker

/-- JavaScript numeric value: NaN, +Infinity, -Infinity, or a finite value. -/
inductive JsNum where
  | nan : JsNum
  | posInf : JsNum
  | negInf : JsNum
  | val (q : ℚ) : JsNum
deriving DecidableEq

/-- JavaScript `<` on numbers: any comparison with NaN is false. -/
def JsNum.lt : JsNum → JsNum → Bool
  | .nan, _ => false
  | _, .nan => false
  | .negInf, .negInf => false
  | .negInf, _ => true
  | _, .negInf => false
  | .posInf, _ => false
  | _, .posInf => true
  | .val a, .val b => a < b

/-- JavaScript `<=` on numbers: any comparison with NaN is false. -/
def JsNum.le : JsNum → JsNum → Bool
  | .nan, _ => false
  | _, .nan => false
  | .negInf, _ => true
  | _, .negInf => false
  | _, .posInf => true
  | .posInf, _ => false
  | .val a, .val b => a ≤ b

/-- JavaScript `>` on numbers. -/
def JsNum.gt (a b : JsNum) : Bool := JsNum.lt b a

/-- JavaScript `>=` on numbers. -/
def JsNum.ge (a b : JsNum) : Bool := JsNum.le b a

/-- JavaScript strict equality `===` on numbers: NaN is not equal to itself. -/
def JsNum.seq : JsNum → JsNum → Bool
  | .nan, _ => false
  | _, .nan => false
  | a, b => a = b

/-- JavaScript strict inequality `!==` on numbers. -/
def JsNum.sne (a b : JsNum) : Bool := !(JsNum.seq a b)

/-- JavaScript truthiness of a number: 0 and NaN are falsy. -/
def JsNum.truthy : JsNum → Bool
  | .nan => false
  | .val q => q ≠ 0
  | _ => true

/-- True exactly for NaN (JavaScript `Number.isNaN`). -/
def JsNum.isNaNb : JsNum → Bool
  | .nan => true
  | _ => false

/-- JavaScript `+` on numbers (IEEE rules for NaN and infinities). -/
def JsNum.add : JsNum → JsNum → JsNum
  | .nan, _ => .nan
  | _, .nan => .nan
  | .posInf, .negInf => .nan
  | .negInf, .posInf => .nan
  | .posInf, _ => .posInf
  | _, .posInf => .posInf
  | .negInf, _ => .negInf
  | _, .negInf => .negInf
  | .val a, .val b => .val (a + b)

/-- JavaScript `*` on numbers (IEEE rules; infinity times zero is NaN). -/
def JsNum.mul : JsNum → JsNum → JsNum
  | .nan, _ => .nan
  | _, .nan => .nan
  | .posInf, .posInf => .posInf
  | .posInf, .negInf => .negInf
  | .negInf, .posInf => .negInf
  | .negInf, .negInf => .posInf
  | .posInf, .val b => if 0 < b then .posInf else if b < 0 then .negInf else .nan
  | .val a, .posInf => if 0 < a then .posInf else if a < 0 then .negInf else .nan
  | .negInf, .val b => if 0 < b then .negInf else if b < 0 then .posInf else .nan
  | .val a, .negInf => if 0 < a then .negInf else if a < 0 then .posInf else .nan
  | .val a, .val b => .val (a * b)

/-- JavaScript division of a number by a nonzero rational (IEEE rules;
division by zero follows the sign conventions of JavaScript). -/
def JsNum.divQ : JsNum → ℚ → JsNum
  | .nan, _ => .nan
  | .posInf, q => if 0 < q then .posInf else if q < 0 then .negInf else .nan
  | .negInf, q => if 0 < q then .negInf else if q < 0 then .posInf else .nan
  | .val a, q =>
    if q = 0 then (if 0 < a then .posInf else if a < 0 then .negInf else .nan)
    else .val (a / q)

/-- The `Position` interface (position.types.ts): latitude, longitude,
altitude, accuracy and a millisecond timestamp.  The `distanceTo` method is
the Haversine computation, modelled as the `dist` parameter of the services. -/
structure Position where
  latitude : JsNum
  longitude : JsNum
  altitude : JsNum
  accuracy : JsNum
  timestamp : Int
deriving DecidableEq

/-- The `CreatePositionData` interface: altitude, accuracy and timestamp are
optional. -/
structure CreatePositionData where
  latitude : JsNum
  longitude : JsNum
  altitude : Option JsNum := none
  accuracy : Option JsNum := none
  timestamp : Option Int := none
deriving DecidableEq

/-- Shorthand for the type of the distance computation
`calculateDistance(lat1, lon1, lat2, lon2)` of gps-tracking.service.ts
(the Haversine formula over doubles, abstracted as explained above). -/
abbrev DistFun := JsNum → JsNum → JsNum → JsNum → JsNum

/-- GpsTrackingService.validatePosition: returns the list of validation
error strings.  The comparisons are JavaScript comparisons, so a NaN
latitude or longitude produces no error.  The accuracy check first tests
truthiness of the optional field, exactly as `position.accuracy &&
position.accuracy < 0` does. -/
def validatePosition (p : CreatePositionData) : List String :=
  (if (JsNum.lt p.latitude (.val (-90)) || JsNum.gt p.latitude (.val 90)) then
    ["Invalid latitude"] else []) ++
  (if (JsNum.lt p.longitude (.val (-180)) || JsNum.gt p.longitude (.val 180)) then
    ["Invalid longitude"] else []) ++
  (if (match p.accuracy with
        | none => false
        | some a => a.truthy && JsNum.lt a (.val 0)) then
    ["Invalid accuracy"] else [])

/-- GpsTrackingService.isDuplicatePosition: a new sample is a duplicate
when a last position exists, the computed distance is below 1 meter and the
absolute timestamp difference is below 10000 ms.  `now` stands for
`Date.now()`, used when the sample carries no timestamp. -/
def isDuplicatePosition (dist : DistFun) (lastPosition : Option Position)
    (p : CreatePositionData) (now : Int) : Bool :=
  match lastPosition with
  | none => false
  | some lp =>
    let distance := dist p.latitude p.longitude lp.latitude lp.longitude
    let timeDiff := (p.timestamp.getD now) - lp.timestamp
    JsNum.lt distance (.val 1) && decide (timeDiff.natAbs < 10000)

/-- GpsTrackingService.isOutOfSequence: the sample timestamp precedes the
stored one. -/
def isOutOfSequence (lastPosition : Option Position)
    (p : CreatePositionData) (now : Int) : Bool :=
  match lastPosition with
  | none => false
  | some lp => decide ((p.timestamp.getD now) < lp.timestamp)

/-- GpsTrackingService.createPositionObject: fills the defaults
altitude = 0, accuracy = 2.5, timestamp = now. -/
def createPositionObject (now : Int) (d : CreatePositionData) : Position :=
  { latitude := d.latitude
    longitude := d.longitude
    altitude := d.altitude.getD (.val 0)
    accuracy := d.accuracy.getD (.val (5 / 2))
    timestamp := d.timestamp.getD now }

/-- isValidLatitude of the common types: in range and not NaN (the typeof
check of the source always holds in this model). -/
def isValidLatitude (v : JsNum) : Bool :=
  JsNum.ge v (.val (-90)) && JsNum.le v (.val 90) && !v.isNaNb

/-- isValidLongitude of the common types. -/
def isValidLongitude (v : JsNum) : Bool :=
  JsNum.ge v (.val (-180)) && JsNum.le v (.val 180) && !v.isNaNb

/-- PositionRepository.validateCreateData, restricted to the per-equipment
slice this model represents (the equipment id here is fixed and non-empty,
so its check cannot fire, and the typeof checks always hold): the JS range
comparisons on latitude and longitude, false on NaN. -/
def validateCreateData (d : CreatePositionData) : List String :=
  (if (JsNum.lt d.latitude (.val (-90)) || JsNum.gt d.latitude (.val 90)) then
    ["Valid latitude is required (-90 to 90)"] else []) ++
  (if (JsNum.lt d.longitude (.val (-180)) || JsNum.gt d.longitude (.val 180)) then
    ["Valid longitude is required (-180 to 180)"] else [])

/-- Position.validate of models/position.ts, reached through
positionRepository.create building `new Position(data)`: NaN-aware
latitude and longitude guards, a NaN check on a provided altitude, and a
NaN-or-negative check on a provided accuracy.  The unusual-range altitude
and accuracy cases only produce warnings, not errors, and a timestamp in
this model is always a valid date. -/
def positionValidate (d : CreatePositionData) : List String :=
  (if !isValidLatitude d.latitude then
    ["Latitude must be a number between -90 and 90 degrees"] else []) ++
  (if !isValidLongitude d.longitude then
    ["Longitude must be a number between -180 and 180 degrees"] else []) ++
  (match d.altitude with
   | none => []
   | some a => if a.isNaNb then ["Altitude must be a valid number"] else []) ++
  (match d.accuracy with
   | none => []
   | some a =>
     if (a.isNaNb || JsNum.lt a (.val 0)) then
       ["Accuracy must be a positive number"] else [])

/-- Per-equipment tracking state together with the per-equipment slice of
the position repository and the statistics counters the processing path
touches.  `lastPosition` and `isTracking` mirror `trackingStates`,
`history` mirrors the rows of `positionRepository` for this equipment,
and the two counters mirror `statisticsStore`. -/
structure GpsState where
  lastPosition : Option Position
  isTracking : Bool
  history : List Position
  duplicateCount : ℕ
  outOfSequenceCount : ℕ
deriving DecidableEq

/-- GpsTrackingService.updateTrackingState: stores the new position as the
last position and marks the equipment as tracked. -/
def updateTrackingState (st : GpsState) (p : Position) : GpsState :=
  { st with lastPosition := some p, isTracking := true }

/-- Events emitted by position processing. -/
inductive GpsEvent where
  | positionUpdate (p : Position)
  | movementDetected (speed : JsNum)
deriving DecidableEq

/-- True for a movementDetected event. -/
def isMovementEvent : GpsEvent → Bool
  | .movementDetected _ => true
  | _ => false

/-- GpsTrackingService.checkForMovement: reads the stored last position,
computes `position.distanceTo(lastPosition)` and the timestamp difference
in seconds, and emits a movementDetected event when the time difference is
positive and the speed exceeds 0.5 m/s. -/
def checkForMovement (dist : DistFun) (st : GpsState) (p : Position) : List GpsEvent :=
  match st.lastPosition with
  | none => []
  | some lp =>
    let distance := dist p.latitude p.longitude lp.latitude lp.longitude
    let timeDiff : ℚ := ((p.timestamp - lp.timestamp : ℤ) : ℚ) / 1000
    if 0 < timeDiff then
      let speed := distance.divQ timeDiff
      if JsNum.gt speed (.val (1 / 2)) then [.movementDetected speed] else []
    else []

/-- GpsTrackingService.processPositionUpdate: validate, reject invalid
samples with an error, drop duplicates (counting them), flag out-of-sequence
samples (counting them), then store through positionRepository.create —
which runs validateCreateData and constructs `new Position(data)`, whose
NaN-aware Position.validate throws on invalid data, the throw propagating
out through handleError and the service catch — and only then update the
tracking state, emit the positionUpdate event and run checkForMovement.
The source updates the tracking state (overwriting `lastPosition`) before
calling checkForMovement, and this order is preserved here.  An error
result carries no state: nothing is stored on any error path (the source
increments some statistics counters before throwing; those increments are
not observable through any claim and are dropped with the error here). -/
def processPositionUpdate (dist : DistFun) (now : Int) (st : GpsState)
    (pd : CreatePositionData) : Except String (GpsState × List GpsEvent) :=
  let errs := validatePosition pd
  if errs ≠ [] then
    .error ("Invalid position: " ++ String.intercalate (", ") errs)
  else if isDuplicatePosition dist st.lastPosition pd now then
    .ok ({ st with duplicateCount := st.duplicateCount + 1 }, [])
  else if validateCreateData pd ≠ [] then
    .error ("Validation failed: " ++ String.intercalate (", ") (validateCreateData pd))
  else if positionValidate pd ≠ [] then
    .error ("Invalid position data: " ++ String.intercalate (", ") (positionValidate pd))
  else
    let oosInc : ℕ := if isOutOfSequence st.lastPosition pd now then 1 else 0
    let p := createPositionObject now pd
    let st1 := { st with
      history := st.history ++ [p]
      outOfSequenceCount := st.outOfSequenceCount + oosInc }
    let st2 := updateTrackingState st1 p
    .ok (st2, .positionUpdate p :: checkForMovement dist st2 p)

/-- The geofence shape union (position.types.ts): circle, rectangle, polygon. -/
inductive GeofenceShape where
  | circle (centerLat centerLng radius : JsNum)
  | rectangle (neLat neLng swLat swLng : JsNum)
  | polygon (vertices : List (JsNum × JsNum))
deriving DecidableEq

/-- A geofence: id, name, active flag and shape. -/
structure Geofence where
  id : String
  name : String
  active : Bool
  shape : GeofenceShape
deriving DecidableEq

/-- isPointInBounds of distance-calculator.ts: inclusive axis-aligned
rectangle containment, via JavaScript comparisons. -/
def isPointInBounds (pointLat pointLng northEastLat northEastLng southWestLat southWestLng : JsNum) : Bool :=
  JsNum.ge pointLat southWestLat && JsNum.le pointLat northEastLat &&
  JsNum.ge pointLng southWestLng && JsNum.le pointLng northEastLng

/-- isPointInCircle of distance-calculator.ts: Haversine distance at most
the radius. -/
def isPointInCircle (dist : DistFun) (pointLat pointLng centerLat centerLng radius : JsNum) : Bool :=
  JsNum.le (dist pointLat pointLng centerLat centerLng) radius

/-- AlertService.isPositionInGeofence: dispatch on the geofence type; the
polygon branch of the source is unimplemented and returns false. -/
def isPositionInGeofence (dist : DistFun) (position : Position) (geofence : Geofence) : Bool :=
  match geofence.shape with
  | .circle centerLat centerLng radius =>
    isPointInCircle dist position.latitude position.longitude centerLat centerLng radius
  | .rectangle neLat neLng swLat swLng =>
    isPointInBounds position.latitude position.longitude neLat neLng swLat swLng
  | .polygon _ => false

/-- Direction of a geofence boundary crossing. -/
inductive ViolationType where
  | entered : ViolationType
  | exited : ViolationType
deriving DecidableEq

/-- A geofence violation alert as created by checkGeofenceViolations:
geofence id and name, crossing direction, and the position snapshot. -/
structure GeofenceEvent where
  geofenceId : String
  geofenceName : String
  violation : ViolationType
  lat : JsNum
  lng : JsNum
deriving DecidableEq

/-- The `wasInside` computation of checkGeofenceViolations: containment of
the previously stored position, false when no position was ever stored. -/
def wasInside (dist : DistFun) (lastPositionData : Option (Position × Int))
    (geofence : Geofence) : Bool :=
  match lastPositionData with
  | none => false
  | some lp => isPositionInGeofence dist lp.1 geofence

/-- The alerts one geofence contributes in one checkGeofenceViolations call:
an entered alert on an outside-to-inside transition, an exited alert on an
inside-to-outside transition, nothing otherwise. -/
def geofenceEvents (dist : DistFun) (geofence : Geofence)
    (lastPositionData : Option (Position × Int)) (position : Position) : List GeofenceEvent :=
  let currentlyInside := isPositionInGeofence dist position geofence
  let was := wasInside dist lastPositionData geofence
  (if currentlyInside && !was then
    [{ geofenceId := geofence.id, geofenceName := geofence.name, violation := .entered,
       lat := position.latitude, lng := position.longitude }] else []) ++
  (if !currentlyInside && was then
    [{ geofenceId := geofence.id, geofenceName := geofence.name, violation := .exited,
       lat := position.latitude, lng := position.longitude }] else [])

/-- AlertService.checkGeofenceViolations for one equipment: iterate the
active geofences comparing current and previous containment, then store the
current position with the wall-clock time `now` as the new last position. -/
def checkGeofenceViolations (dist : DistFun) (geofences : List Geofence)
    (lastPositionData : Option (Position × Int)) (position : Position) (now : Int) :
    List GeofenceEvent × Option (Position × Int) :=
  (((geofences.filter (fun gf => gf.active)).flatMap
      (fun gf => geofenceEvents dist gf lastPositionData position)),
   some (position, now))

/-- Repeated geofence checking over a sequence of (position, wall-clock)
pairs, threading the stored last position; returns all alerts in order. -/
def runGeofencePositions (dist : DistFun) (geofences : List Geofence) :
    Option (Position × Int) → List (Position × Int) → List GeofenceEvent
  | _, [] => []
  | lastPositionData, (p, t) :: rest =>
    let r := checkGeofenceViolations dist geofences lastPositionData p t
    r.1 ++ runGeofencePositions dist geofences r.2 rest

/-- The AlertType enum (equipment.types.ts). -/
inductive AlertType where
  | geofenceViolation
  | maintenanceRequired
  | lowBattery
  | connectionLost
  | speedLimit
  | unauthorizedUse
deriving DecidableEq

/-- Alert severities. -/
inductive Severity where
  | low
  | medium
  | high
  | critical
deriving DecidableEq

/-- The conditions of a monitoring rule (alert.service.ts). -/
structure RuleConditions where
  maxInactiveTime : Option JsNum := none
  maxSpeed : Option JsNum := none
  minAccuracy : Option JsNum := none
  operatingHours : Option (String × String) := none
  geofenceIds : Option (List String) := none
deriving DecidableEq

/-- A monitoring rule. -/
structure MonitoringRule where
  id : String
  name : String
  equipmentId : Option String := none
  conditions : RuleConditions
  alertType : AlertType
  severity : Severity
  enabled : Bool := true
deriving DecidableEq

/-- The metadata attached to an alert, one variant per creation site of the
source (the human-readable message string is presentation-only and is not
modelled). -/
inductive AlertMeta where
  | speed (ruleId ruleName : String) (actualSpeed speedLimit : JsNum)
  | accuracyMeta (ruleId ruleName : String) (actualAccuracy requiredAccuracy : JsNum)
  | hours (ruleId ruleName : String) (startT endT : String)
deriving DecidableEq

/-- The data of an alert created by evaluateRule (id, creation timestamp and
acknowledged flag are added by createAlert). -/
structure AlertData where
  equipmentId : String
  type : AlertType
  severity : Severity
  meta : AlertMeta
deriving DecidableEq

/-- True for a speed-limit alert emitted by the maxSpeed branch. -/
def isSpeedAlert (a : AlertData) : Bool :=
  match a.meta with
  | .speed _ _ _ _ => true
  | _ => false

/-- True for an operating-hours alert. -/
def isHoursAlert (a : AlertData) : Bool :=
  match a.meta with
  | .hours _ _ _ _ => true
  | _ => false

/-- Numeric value of a list of decimal digit characters. -/
def digitsVal (l : List Char) : ℕ :=
  l.foldl (fun n c => n * 10 + (c.toNat - 48)) 0

/-- Parse an unsigned decimal literal (digits, optionally with one decimal
point, at least one digit overall) to a rational. -/
def parseDecimalCore (l : List Char) : Option ℚ :=
  match l.span (fun c => c.isDigit) with
  | (intPart, []) => if intPart = [] then none else some ((digitsVal intPart : ℕ) : ℚ)
  | (intPart, sep :: rest) =>
    if sep = '.' && rest.all (fun c => c.isDigit) && (intPart ≠ [] || rest ≠ []) then
      some (((digitsVal intPart : ℕ) : ℚ) + ((digitsVal rest : ℕ) : ℚ) / ((10 : ℚ) ^ rest.length))
    else none

/-- Whitespace trimming on a character list (the trimming step of the
JavaScript string-to-number conversion). -/
def trimChars (l : List Char) : List Char :=
  ((l.dropWhile Char.isWhitespace).reverse.dropWhile Char.isWhitespace).reverse

/-- Splitting a character list at every colon, exactly as
`String.prototype.split(":")` does: n colons give n + 1 fields, empty
fields included. -/
def splitOnColonChars (l : List Char) : List (List Char) :=
  l.foldr
    (fun c acc =>
      match acc with
      | [] => [[c]]
      | h :: t => if c = ':' then [] :: h :: t else (c :: h) :: t)
    [[]]

/-- Model of the JavaScript `Number(string)` conversion for the string
shapes relevant to HH:MM parsing: the trimmed empty string is 0, signed
decimal literals and the Infinity literals convert, everything else is NaN.
(Hexadecimal and exponent forms are outside the shapes this service meets
and convert to NaN here.) -/
def jsNumberChars (l : List Char) : JsNum :=
  let t := trimChars l
  if t = [] then .val 0
  else if t = ("Infinity").data || t = ("+Infinity").data then .posInf
  else if t = ("-Infinity").data then .negInf
  else
    match t with
    | '-' :: rest =>
      (match parseDecimalCore rest with
       | some q => .val (-q)
       | none => .nan)
    | '+' :: rest =>
      (match parseDecimalCore rest with
       | some q => .val q
       | none => .nan)
    | l2 =>
      (match parseDecimalCore l2 with
       | some q => .val q
       | none => .nan)

/-- JavaScript `Number(string)`. -/
def jsNumber (s : String) : JsNum :=
  jsNumberChars s.data

/-- The `split(":").map(Number)` computation of the operating-hours check. -/
def parseClock (s : String) : List JsNum :=
  (splitOnColonChars s.data).map jsNumberChars

/-- A parts list passes the operating-hours format check of evaluateRule:
at least two colon-separated fields and the first two convert to numbers
(the undefined-index guards of the source are subsumed by the length
check, and the source writes the guard as one flat disjunction over both
strings; these are pure tests, so grouping them per string is equivalent). -/
def partsOk (p : List JsNum) : Bool :=
  decide (2 ≤ p.length) && !(p.getD 0 .nan).isNaNb && !(p.getD 1 .nan).isNaNb

/-- A time string passes the operating-hours format check of evaluateRule. -/
def clockPartsOk (s : String) : Bool :=
  partsOk (parseClock s)

/-- Minutes since midnight of a millisecond timestamp
(`getHours() * 60 + getMinutes()`; the local timezone is modelled as UTC). -/
def minutesOfDay (t : Int) : Int :=
  ((t.ediv 3600000).emod 24) * 60 + (t.ediv 60000).emod 60

/-- The time difference in seconds between the position timestamp and the
stored wall-clock timestamp of the last position
(`(position.timestamp.getTime() - lastPositionData.timestamp.getTime()) / 1000`). -/
def ruleTimeDiff (positionTs lastTs : Int) : ℚ :=
  ((positionTs - lastTs : ℤ) : ℚ) / 1000

/-- The simplified distance of the maxSpeed branch: 100 when either
coordinate differs under strict inequality, else 0 (the source comment
reads "Simplified distance calculation"). -/
def simplifiedDistance (position lp : Position) : ℚ :=
  if JsNum.sne position.latitude lp.latitude ||
     JsNum.sne position.longitude lp.longitude then 100 else 0

/-- The speed the maxSpeed branch computes: simplified distance over the
time difference. -/
def simplifiedSpeed (position lp : Position) (lastTs : Int) : ℚ :=
  simplifiedDistance position lp / ruleTimeDiff position.timestamp lastTs

/-- The maxSpeed branch of AlertService.evaluateRule.  The source computes
the time difference from the stored wall-clock timestamp of the last
position and emits an alert when the simplified speed exceeds the limit. -/
def speedBranch (rule : MonitoringRule) (equipmentId : String) (position : Position)
    (lastPositionData : Option (Position × Int)) : List AlertData :=
  match rule.conditions.maxSpeed with
  | none => []
  | some maxSpeed =>
    match lastPositionData with
    | none => []
    | some (lp, lts) =>
      if 0 < ruleTimeDiff position.timestamp lts then
        let speed := simplifiedSpeed position lp lts
        if JsNum.gt (.val speed) maxSpeed then
          [{ equipmentId := equipmentId, type := rule.alertType, severity := rule.severity,
             meta := .speed rule.id rule.name (.val speed) maxSpeed }]
        else []
      else []

/-- The minAccuracy branch of AlertService.evaluateRule. -/
def accuracyBranch (rule : MonitoringRule) (equipmentId : String) (position : Position) :
    List AlertData :=
  match rule.conditions.minAccuracy with
  | none => []
  | some minAccuracy =>
    if JsNum.gt position.accuracy minAccuracy then
      [{ equipmentId := equipmentId, type := rule.alertType, severity := rule.severity,
         meta := .accuracyMeta rule.id rule.name position.accuracy minAccuracy }]
    else []

/-- The operatingHours branch of AlertService.evaluateRule.  Malformed
start or end strings (fewer than two colon-separated fields, or a field
that converts to NaN) are logged and skipped without an alert; the
undefined-index guards of the source are subsumed by the length check.
Since this is the last check of evaluateRule, the early return of the
source is equivalent to yielding no alert. -/
def hoursBranch (rule : MonitoringRule) (equipmentId : String) (position : Position) :
    List AlertData :=
  match rule.conditions.operatingHours with
  | none => []
  | some (startS, endS) =>
    let currentTime : Int := minutesOfDay position.timestamp
    let startTimeParts := parseClock startS
    let endTimeParts := parseClock endS
    if !partsOk startTimeParts || !partsOk endTimeParts then
      []
    else
      let startTime := JsNum.add (JsNum.mul (startTimeParts.getD 0 .nan) (.val 60))
        (startTimeParts.getD 1 .nan)
      let endTime := JsNum.add (JsNum.mul (endTimeParts.getD 0 .nan) (.val 60))
        (endTimeParts.getD 1 .nan)
      if JsNum.lt (.val currentTime) startTime || JsNum.gt (.val currentTime) endTime then
        [{ equipmentId := equipmentId, type := rule.alertType, severity := rule.severity,
           meta := .hours rule.id rule.name startS endS }]
      else []

/-- AlertService.evaluateRule: the three condition checks in source order. -/
def evaluateRule (rule : MonitoringRule) (equipmentId : String) (position : Position)
    (lastPositionData : Option (Position × Int)) : List AlertData :=
  speedBranch rule equipmentId position lastPositionData ++
  accuracyBranch rule equipmentId position ++
  hoursBranch rule equipmentId position

/-- The applicability filter of checkMonitoringRules:
`rule.enabled && (!rule.equipmentId || rule.equipmentId === equipmentId)`.
An empty-string scope is falsy in JavaScript and therefore applies to all
equipment. -/
def ruleApplies (rule : MonitoringRule) (equipmentId : String) : Bool :=
  rule.enabled &&
  (match rule.equipmentId with
   | none => true
   | some rid => if rid = "" then true else rid = equipmentId)

/-- AlertService.checkMonitoringRules: evaluate every enabled applicable
rule against the position, concatenating the alerts in rule order. -/
def checkMonitoringRules (rules : List MonitoringRule) (equipmentId : String)
    (position : Position) (lastPositionData : Option (Position × Int)) : List AlertData :=
  (rules.filter (fun r => ruleApplies r equipmentId)).flatMap
    (fun r => evaluateRule r equipmentId position lastPositionData)

/-- A stored alert (EquipmentAlert of equipment.types.ts; the message
string is presentation-only and not modelled). -/
structure EquipmentAlert where
  id : String
  equipmentId : String
  type : AlertType
  severity : Severity
  timestamp : Int
  acknowledged : Bool
  acknowledgedBy : Option String := none
  acknowledgedAt : Option Int := none
  meta : AlertMeta
deriving DecidableEq

/-- The alert store of AlertService: the alerts Map in insertion order,
keyed by id, with the id counter. -/
structure AlertStore where
  alerts : List EquipmentAlert
  alertIdCounter : ℕ
deriving DecidableEq

/-- JavaScript `Map.set` on the id-keyed alert list: replace in place when
the key exists, append otherwise. -/
def mapSet (l : List EquipmentAlert) (a : EquipmentAlert) : List EquipmentAlert :=
  if l.any (fun b => b.id = a.id) then
    l.map (fun b => if b.id = a.id then a else b)
  else l ++ [a]

/-- AlertService.createAlert: assign the next id, stamp the creation time,
start unacknowledged, and store the alert. -/
def createAlert (store : AlertStore) (now : Int) (d : AlertData) :
    EquipmentAlert × AlertStore :=
  let a : EquipmentAlert :=
    { id := "alert_" ++ toString store.alertIdCounter
      equipmentId := d.equipmentId
      type := d.type
      severity := d.severity
      timestamp := now
      acknowledged := false
      acknowledgedBy := none
      acknowledgedAt := none
      meta := d.meta }
  (a, { alerts := mapSet store.alerts a, alertIdCounter := store.alertIdCounter + 1 })

/-- The two failure modes of acknowledgeAlert. -/
inductive AckErr where
  | notFound
  | alreadyAcknowledged
deriving DecidableEq

/-- AlertService.acknowledgeAlert: not-found and already-acknowledged are
errors leaving the store unchanged; otherwise the alert is updated with the
acknowledger and time and written back under the same id. -/
def acknowledgeAlert (store : AlertStore) (alertId acknowledgedBy : String) (now : Int) :
    Except AckErr EquipmentAlert × AlertStore :=
  match store.alerts.find? (fun a => a.id = alertId) with
  | none => (.error .notFound, store)
  | some a =>
    if a.acknowledged then (.error .alreadyAcknowledged, store)
    else
      let updated : EquipmentAlert :=
        { a with acknowledged := true, acknowledgedBy := some acknowledgedBy,
                 acknowledgedAt := some now }
      (.ok updated, { store with alerts := mapSet store.alerts updated })

/-- GeofenceController.isPointInPolygon (geofence.controller.ts): ray
casting over the (latitude, longitude) pairs.  Coordinates are idealised as
exact rationals; the division is only reached under the guard
`yi > lng !== yj > lng`, which forces `yj - yi` nonzero. -/
def isPointInPolygon (lat lng : ℚ) (vertices : List (ℚ × ℚ)) : Bool :=
  (List.range vertices.length).foldl
    (fun inside i =>
      let j := if i = 0 then vertices.length - 1 else i - 1
      let vi := vertices.getD i (0, 0)
      let vj := vertices.getD j (0, 0)
      let xi := vi.1
      let yi := vi.2
      let xj := vj.1
      let yj := vj.2
      if (decide (lng < yi) != decide (lng < yj)) &&
         decide (lat < (xj - xi) * (lng - yi) / (yj - yi) + xi) then
        !inside
      else inside)
    false

/-- The EquipmentStatus enum. -/
inductive EquipmentStatus where
  | active
  | inactive
  | maintenance
  | unknown
deriving DecidableEq

namespace Constants

/-- Constants.DEFAULT_MAX_HISTORY_SIZE of common.types.ts. -/
def DEFAULT_MAX_HISTORY_SIZE : ℕ := 100

end Constants

/-- The Equipment model fields touched by recordPosition
(models/equipment.ts). -/
structure Equipment where
  positionHistory : List Position
  lastPosition : Option Position := none
  status : EquipmentStatus
  maxHistorySize : ℕ
deriving DecidableEq

/-- A fresh Equipment as built by the constructor: empty history, capacity
DEFAULT_MAX_HISTORY_SIZE. -/
def mkEquipment (status : EquipmentStatus) : Equipment :=
  { positionHistory := [], lastPosition := none, status := status,
    maxHistorySize := Constants.DEFAULT_MAX_HISTORY_SIZE }

/-- Equipment.recordPosition: append to the history, update the last
position, evict the oldest entry when the capacity is exceeded, and
activate inactive or unknown equipment. -/
def recordPosition (e : Equipment) (p : Position) : Equipment :=
  let h1 := e.positionHistory ++ [p]
  let h2 := if h1.length > e.maxHistorySize then h1.tail else h1
  let newStatus :=
    if e.status = .inactive || e.status = .unknown then .active else e.status
  { e with positionHistory := h2, lastPosition := some p, status := newStatus }

/-- Recording a sequence of positions in order. -/
def recordAll (e : Equipment) (ps : List Position) : Equipment :=
  ps.foldl recordPosition e

/-! Helper lemmas. -/

/-- Unfolding lemma for the history update of recordPosition. -/
theorem recordPosition_history (e : Equipment) (p : Position) :
    (recordPosition e p).positionHistory =
      if (e.positionHistory ++ [p]).length > e.maxHistorySize then
        (e.positionHistory ++ [p]).tail
      else e.positionHistory ++ [p] := rfl

/-- recordPosition does not change the capacity. -/
theorem recordPosition_max (e : Equipment) (p : Position) :
    (recordPosition e p).maxHistorySize = e.maxHistorySize := rfl

/-- recordAll distributes over cons. -/
theorem recordAll_cons (e : Equipment) (p : Position) (ps : List Position) :
    recordAll e (p :: ps) = recordAll (recordPosition e p) ps := rfl

/-- recordAll distributes over append. -/
theorem recordAll_append (e : Equipment) (ps qs : List Position) :
    recordAll e (ps ++ qs) = recordAll (recordAll e ps) qs :=
  List.foldl_append _ _ _ _

/-- recordAll does not change the capacity. -/
theorem recordAll_max (ps : List Position) (e : Equipment) :
    (recordAll e ps).maxHistorySize = e.maxHistorySize := by
  induction ps generalizing e with
  | nil => rfl
  | cons p ps ih => rw [recordAll_cons, ih, recordPosition_max]

/-- While the capacity is not exceeded, recording appends with no eviction. -/
theorem recordAll_no_evict (ps : List Position) (e : Equipment)
    (h : e.positionHistory.length + ps.length ≤ e.maxHistorySize) :
    (recordAll e ps).positionHistory = e.positionHistory ++ ps := by
  induction ps generalizing e with
  | nil => simp [recordAll]
  | cons p ps ih =>
    rw [recordAll_cons]
    have hlen : ¬ (e.positionHistory ++ [p]).length > e.maxHistorySize := by
      simp only [List.length_append, List.length_singleton]
      simp only [List.length_cons] at h
      omega
    have hrec : (recordPosition e p).positionHistory = e.positionHistory ++ [p] := by
      rw [recordPosition_history, if_neg hlen]
    have hstep := ih (recordPosition e p)
      (by
        rw [hrec, recordPosition_max]
        simp only [List.length_append, List.length_singleton]
        simp only [List.length_cons] at h
        omega)
    rw [hstep, hrec, List.append_assoc, List.singleton_append]

/-! Claim theorems. -/

/-- C6: point-in-polygon containment by ray casting returns true for (5,5)
and false for (15,15) against the square [(0,0),(0,10),(10,10),(10,0)]. -/
theorem pointInPolygon_square :
    isPointInPolygon 5 5 [(0, 0), (0, 10), (10, 10), (10, 0)] = true ∧
    isPointInPolygon 15 15 [(0, 0), (0, 10), (10, 10), (10, 0)] = false := by
  constructor <;> norm_num [isPointInPolygon, List.range_succ, List.foldl]

/-- C10: recording preserves the capacity bound on the history, and
recording capacity + 1 positions into a fresh equipment leaves exactly the
most recent capacity positions in arrival order, the oldest evicted. -/
theorem recordPosition_history_bounded :
    (∀ (e : Equipment) (p : Position),
        e.positionHistory.length ≤ e.maxHistorySize →
        (recordPosition e p).positionHistory.length ≤ e.maxHistorySize) ∧
    (∀ (st : EquipmentStatus) (ps : List Position),
        ps.length = Constants.DEFAULT_MAX_HISTORY_SIZE + 1 →
        (recordAll (mkEquipment st) ps).positionHistory = ps.tail ∧
        (recordAll (mkEquipment st) ps).positionHistory.length =
          Constants.DEFAULT_MAX_HISTORY_SIZE) := by
  constructor
  · intro e p h
    rw [recordPosition_history]
    by_cases hc : (e.positionHistory ++ [p]).length > e.maxHistorySize
    · rw [if_pos hc]
      simp only [List.length_tail, List.length_append, List.length_singleton]
      omega
    · rw [if_neg hc]
      simp only [List.length_append, List.length_singleton] at hc ⊢
      omega
  · intro st ps h
    have hN : Constants.DEFAULT_MAX_HISTORY_SIZE = 100 := rfl
    rw [hN] at h
    have hsplit : ps.take 100 ++ ps.drop 100 = ps := List.take_append_drop _ _
    have htake : (ps.take 100).length = 100 := by
      rw [List.length_take]; omega
    have hdropLen : (ps.drop 100).length = 1 := by
      rw [List.length_drop]; omega
    obtain ⟨p, hp⟩ := List.length_eq_one.mp hdropLen
    have h1 : recordAll (mkEquipment st) ps =
        recordPosition (recordAll (mkEquipment st) (ps.take 100)) p := by
      conv_lhs => rw [← hsplit, hp]
      rw [recordAll_append]
      rfl
    have hmax : (recordAll (mkEquipment st) (ps.take 100)).maxHistorySize = 100 :=
      recordAll_max _ _
    have h2 : (recordAll (mkEquipment st) (ps.take 100)).positionHistory = ps.take 100 := by
      have := recordAll_no_evict (ps.take 100) (mkEquipment st)
        (by simp [mkEquipment, Constants.DEFAULT_MAX_HISTORY_SIZE, htake])
      simpa [mkEquipment] using this
    have hfull : ps.take 100 ++ [p] = ps := by rw [← hp, hsplit]
    have hhist : (recordAll (mkEquipment st) ps).positionHistory = ps.tail := by
      rw [h1, recordPosition_history, h2, hmax, hfull, if_pos (by omega)]
    refine ⟨hhist, ?_⟩
    rw [hhist, hN, List.length_tail]
    omega

/-- A Position value used by concrete instances below. -/
def posA : Position :=
  { latitude := .val 5, longitude := .val 5, altitude := .val 0,
    accuracy := .val 2, timestamp := 0 }

/-- Witness for C10 at a concrete fresh equipment and 101 concrete
positions. -/
theorem recordPosition_history_bounded_witness :
    ((recordPosition (mkEquipment EquipmentStatus.inactive) posA).positionHistory.length ≤
      (mkEquipment EquipmentStatus.inactive).maxHistorySize) ∧
    ((recordAll (mkEquipment EquipmentStatus.inactive)
        (List.replicate 101 posA)).positionHistory = (List.replicate 101 posA).tail) :=
  ⟨recordPosition_history_bounded.1 (mkEquipment EquipmentStatus.inactive) posA
      (by simp [mkEquipment]),
   (recordPosition_history_bounded.2 EquipmentStatus.inactive (List.replicate 101 posA)
      (by simp [Constants.DEFAULT_MAX_HISTORY_SIZE])).1⟩

/-- C7: the polygon branch of containment always returns false, so a
polygon geofence never contributes an entered or exited alert, over any
sequence of checked positions. -/
theorem polygon_geofence_never_alerts :
    ∀ (dist : DistFun) (gf : Geofence) (vs : List (JsNum × JsNum)),
      gf.shape = .polygon vs →
      (∀ p : Position, isPositionInGeofence dist p gf = false) ∧
      (∀ (last : Option (Position × Int)) (p : Position),
          geofenceEvents dist gf last p = []) ∧
      (∀ (last : Option (Position × Int)) (ps : List (Position × Int)),
          runGeofencePositions dist [gf] last ps = []) := by
  intro dist gf vs hshape
  have hin : ∀ p : Position, isPositionInGeofence dist p gf = false := by
    intro p; simp [isPositionInGeofence, hshape]
  have hwas : ∀ last, wasInside dist last gf = false := by
    intro last
    cases last with
    | none => rfl
    | some lp => simp [wasInside, hin]
  have hev : ∀ last p, geofenceEvents dist gf last p = [] := by
    intro last p; simp [geofenceEvents, hin, hwas]
  refine ⟨hin, hev, ?_⟩
  intro last ps
  induction ps generalizing last with
  | nil => rfl
  | cons q rest ih =>
    obtain ⟨p, t⟩ := q
    have hch : (checkGeofenceViolations dist [gf] last p t).1 = [] := by
      cases hact : gf.active <;>
        simp [checkGeofenceViolations, List.filter_cons, hact, hev]
    show (checkGeofenceViolations dist [gf] last p t).1 ++
        runGeofencePositions dist [gf] (checkGeofenceViolations dist [gf] last p t).2 rest = []
    rw [hch, List.nil_append]
    exact ih _

/-- A distance function for concrete instances; the Haversine distance of
NaN inputs is NaN, and rectangle containment never consults it. -/
def nanDist : DistFun := fun _ _ _ _ => .nan

/-- A concrete polygon geofence. -/
def polyGf : Geofence :=
  { id := "gp", name := "Poly", active := true,
    shape := .polygon [(.val 0, .val 0), (.val 0, .val 10), (.val 10, .val 10)] }

/-- Witness for C7 at a concrete polygon geofence and position. -/
theorem polygon_geofence_never_alerts_witness :
    isPositionInGeofence nanDist posA polyGf = false ∧
    geofenceEvents nanDist polyGf none posA = [] ∧
    runGeofencePositions nanDist [polyGf] none [(posA, 0), (posA, 1)] = [] := by
  have h := polygon_geofence_never_alerts nanDist polyGf
    [(.val 0, .val 0), (.val 0, .val 10), (.val 10, .val 10)] rfl
  exact ⟨h.1 posA, h.2.1 none posA, h.2.2 none _⟩

/-- C4: with a prior position, a valid sample less than 1 meter away (per
the computed distance) and less than 10 seconds apart is a duplicate: the
call succeeds, only the duplicate counter changes, and the history, the
last position and the tracking flag are unchanged. -/
theorem duplicate_position_suppressed :
    ∀ (dist : DistFun) (now : Int) (st : GpsState) (pd : CreatePositionData) (lp : Position),
      st.lastPosition = some lp →
      validatePosition pd = [] →
      JsNum.lt (dist pd.latitude pd.longitude lp.latitude lp.longitude) (.val 1) = true →
      ((pd.timestamp.getD now) - lp.timestamp).natAbs < 10000 →
      processPositionUpdate dist now st pd =
        .ok ({ st with duplicateCount := st.duplicateCount + 1 }, []) ∧
      ({ st with duplicateCount := st.duplicateCount + 1 } : GpsState).history = st.history ∧
      ({ st with duplicateCount := st.duplicateCount + 1 } : GpsState).lastPosition =
        st.lastPosition ∧
      ({ st with duplicateCount := st.duplicateCount + 1 } : GpsState).isTracking =
        st.isTracking := by
  intro dist now st pd lp hlast hvalid hdist htime
  have hdup : isDuplicatePosition dist st.lastPosition pd now = true := by
    rw [hlast]
    simp [isDuplicatePosition, hdist, htime]
  refine ⟨?_, rfl, rfl, rfl⟩
  simp [processPositionUpdate, hvalid, hdup]

/-- The prior position of the concrete duplicate instance. -/
def dupLast : Position :=
  { latitude := .val 1, longitude := .val 2, altitude := .val 0,
    accuracy := .val 2, timestamp := 0 }

/-- The GPS state holding dupLast. -/
def dupState : GpsState :=
  { lastPosition := some dupLast, isTracking := true, history := [dupLast],
    duplicateCount := 0, outOfSequenceCount := 0 }

/-- A sample at the same coordinates five seconds later. -/
def dupSample : CreatePositionData :=
  { latitude := .val 1, longitude := .val 2, timestamp := some 5000 }

/-- A distance function that returns zero, as the Haversine does on equal
coordinates. -/
def zeroDist : DistFun := fun _ _ _ _ => .val 0

/-- Witness for C4 at the concrete duplicate instance. -/
theorem duplicate_position_suppressed_witness :
    processPositionUpdate zeroDist 0 dupState dupSample =
      .ok ({ dupState with duplicateCount := dupState.duplicateCount + 1 }, []) :=
  (duplicate_position_suppressed zeroDist 0 dupState dupSample dupLast rfl
    (by decide) (by decide) (by decide)).1

/-- After updateTrackingState has stored the new position, checkForMovement
compares the position with itself: the time difference is zero, so no
movement event is ever produced. -/
theorem checkForMovement_self (dist : DistFun) (st : GpsState) (p : Position) :
    checkForMovement dist (updateTrackingState st p) p = [] := by
  simp [checkForMovement, updateTrackingState]

/-- The distance function of the concrete movement instance: the two
concrete positions are 100 meters apart. -/
def dist100 : DistFun := fun _ _ _ _ => .val 100

/-- The previously stored position of the movement instance. -/
def prevTracked : Position :=
  { latitude := .val 0, longitude := .val 0, altitude := .val 0,
    accuracy := .val 2, timestamp := 100000 }

/-- The GPS state holding prevTracked. -/
def prevState : GpsState :=
  { lastPosition := some prevTracked, isTracking := true, history := [prevTracked],
    duplicateCount := 0, outOfSequenceCount := 0 }

/-- A sample 100 meters away (per dist100), 100 seconds later: the
instantaneous speed from the previous to the new position is 1 m/s. -/
def newSample : CreatePositionData :=
  { latitude := .val 1, longitude := .val 0, altitude := some (.val 0),
    accuracy := some (.val 2), timestamp := some 200000 }

/-- The Position object the service builds from newSample. -/
def newStoredPos : Position :=
  { latitude := .val 1, longitude := .val 0, altitude := .val 0,
    accuracy := .val 2, timestamp := 200000 }

/-- C3: the service never emits a movement-detected event, because
updateTrackingState overwrites the stored last position with the new
position before checkForMovement runs, so the computed time difference is
always zero.  In particular, at the concrete instance where the previous
and new positions are 100 m and 100 s apart (instantaneous speed 1 m/s,
above the 0.5 m/s threshold), the accepted update emits only the
positionUpdate event. -/
theorem movement_event_never_emitted :
    (∀ (dist : DistFun) (now : Int) (st : GpsState) (pd : CreatePositionData)
        (st2 : GpsState) (evs : List GpsEvent),
        processPositionUpdate dist now st pd = .ok (st2, evs) →
        evs.filter isMovementEvent = []) ∧
    ((1 : ℚ) > 1 / 2 ∧
     dist100 newSample.latitude newSample.longitude prevTracked.latitude
         prevTracked.longitude = .val 100 ∧
     ((newSample.timestamp.getD 0 - prevTracked.timestamp : ℤ) : ℚ) / 1000 = 100 ∧
     processPositionUpdate dist100 200000 prevState newSample =
       .ok ({ lastPosition := some newStoredPos, isTracking := true,
              history := [prevTracked, newStoredPos],
              duplicateCount := 0, outOfSequenceCount := 0 },
            [.positionUpdate newStoredPos])) := by
  constructor
  · intro dist now st pd st2 evs h
    by_cases hval : validatePosition pd = []
    · by_cases hdup : isDuplicatePosition dist st.lastPosition pd now = true
      · simp [processPositionUpdate, hval, hdup] at h
        rw [h.2]
        rfl
      · by_cases hcv : validateCreateData pd = []
        · by_cases hpv : positionValidate pd = []
          · simp [processPositionUpdate, hval, hdup, hcv, hpv, checkForMovement_self] at h
            rw [← h.2]
            rfl
          · simp [processPositionUpdate, hval, hdup, hcv, hpv] at h
        · simp [processPositionUpdate, hval, hdup, hcv] at h
    · simp [processPositionUpdate, hval] at h
  · refine ⟨by norm_num, rfl, by norm_num [newSample, prevTracked], ?_⟩
    norm_num [processPositionUpdate, validatePosition, isDuplicatePosition, isOutOfSequence,
      validateCreateData, positionValidate, isValidLatitude, isValidLongitude,
      createPositionObject, updateTrackingState, checkForMovement, newSample, prevState,
      prevTracked, newStoredPos, dist100, JsNum.lt, JsNum.gt, JsNum.le, JsNum.ge,
      JsNum.truthy, JsNum.isNaNb]

/-- Witness for C3: the concrete accepted update of the theorem emits no
movement event. -/
theorem movement_event_never_emitted_witness :
    [GpsEvent.positionUpdate newStoredPos].filter isMovementEvent = [] :=
  movement_event_never_emitted.1 dist100 200000 prevState newSample _ _
    movement_event_never_emitted.2.2.2.2

/-- Membership characterization of the alerts one geofence contributes. -/
theorem mem_geofenceEvents (dist : DistFun) (gf : Geofence)
    (last : Option (Position × Int)) (pos : Position) (ev : GeofenceEvent) :
    ev ∈ geofenceEvents dist gf last pos ↔
      ((isPositionInGeofence dist pos gf = true ∧ wasInside dist last gf = false ∧
        ev = { geofenceId := gf.id, geofenceName := gf.name, violation := .entered,
               lat := pos.latitude, lng := pos.longitude }) ∨
       (isPositionInGeofence dist pos gf = false ∧ wasInside dist last gf = true ∧
        ev = { geofenceId := gf.id, geofenceName := gf.name, violation := .exited,
               lat := pos.latitude, lng := pos.longitude })) := by
  cases hin : isPositionInGeofence dist pos gf <;> cases hwas : wasInside dist last gf <;>
    simp [geofenceEvents, hin, hwas]

/-- While the equipment stays inside an active geofence, repeated checks
starting from an inside stored position emit nothing. -/
theorem runGeofence_inside_silent (dist : DistFun) (gf : Geofence)
    (hact : gf.active = true) :
    ∀ (ps : List (Position × Int)) (lp : Position × Int),
      isPositionInGeofence dist lp.1 gf = true →
      (∀ q ∈ ps, isPositionInGeofence dist q.1 gf = true) →
      runGeofencePositions dist [gf] (some lp) ps = [] := by
  intro ps
  induction ps with
  | nil => intro lp _ _; rfl
  | cons q rest ih =>
    intro lp hlp hall
    obtain ⟨p, t⟩ := q
    have hp : isPositionInGeofence dist p gf = true := hall (p, t) (by simp)
    have hev : geofenceEvents dist gf (some lp) p = [] := by
      simp [geofenceEvents, hp, wasInside, hlp]
    have hch : (checkGeofenceViolations dist [gf] (some lp) p t).1 = [] := by
      simp [checkGeofenceViolations, List.filter_cons, hact, hev]
    simp only [runGeofencePositions]
    rw [hch, List.nil_append]
    exact ih (p, t) hp (fun q hq => hall q (by simp [hq]))

/-- C2: an entered alert is emitted exactly on an outside-to-inside
transition and an exited alert exactly on an inside-to-outside transition,
with the stored position treated as outside when absent; consequently a
sequence of positions all inside one active geofence emits exactly one
entered alert in total, and an inside/outside/inside sequence emits
entered, exited, entered in that order. -/
theorem geofence_transition_spec :
    ∀ (dist : DistFun),
      (∀ (gfs : List Geofence) (last : Option (Position × Int)) (pos : Position)
          (now : Int) (ev : GeofenceEvent),
          (ev ∈ (checkGeofenceViolations dist gfs last pos now).1 ↔
            ∃ gf, gf ∈ gfs ∧ gf.active = true ∧
              ((isPositionInGeofence dist pos gf = true ∧ wasInside dist last gf = false ∧
                ev = { geofenceId := gf.id, geofenceName := gf.name, violation := .entered,
                       lat := pos.latitude, lng := pos.longitude }) ∨
               (isPositionInGeofence dist pos gf = false ∧ wasInside dist last gf = true ∧
                ev = { geofenceId := gf.id, geofenceName := gf.name, violation := .exited,
                       lat := pos.latitude, lng := pos.longitude })))) ∧
      (∀ (gf : Geofence) (p : Position × Int) (rest : List (Position × Int)),
          gf.active = true →
          (∀ q ∈ p :: rest, isPositionInGeofence dist q.1 gf = true) →
          runGeofencePositions dist [gf] none (p :: rest) =
            [{ geofenceId := gf.id, geofenceName := gf.name, violation := .entered,
               lat := p.1.latitude, lng := p.1.longitude }]) ∧
      (∀ (gf : Geofence) (p1 p2 p3 : Position) (t1 t2 t3 : Int),
          gf.active = true →
          isPositionInGeofence dist p1 gf = true →
          isPositionInGeofence dist p2 gf = false →
          isPositionInGeofence dist p3 gf = true →
          runGeofencePositions dist [gf] none [(p1, t1), (p2, t2), (p3, t3)] =
            [{ geofenceId := gf.id, geofenceName := gf.name, violation := .entered,
               lat := p1.latitude, lng := p1.longitude },
             { geofenceId := gf.id, geofenceName := gf.name, violation := .exited,
               lat := p2.latitude, lng := p2.longitude },
             { geofenceId := gf.id, geofenceName := gf.name, violation := .entered,
               lat := p3.latitude, lng := p3.longitude }]) := by
  intro dist
  refine ⟨?_, ?_, ?_⟩
  · intro gfs last pos now ev
    simp only [checkGeofenceViolations, List.mem_flatMap, List.mem_filter,
      mem_geofenceEvents]
    constructor
    · rintro ⟨gf, ⟨hmem, hact⟩, hrest⟩
      exact ⟨gf, hmem, hact, hrest⟩
    · rintro ⟨gf, hmem, hact, hrest⟩
      exact ⟨gf, ⟨hmem, hact⟩, hrest⟩
  · intro gf p rest hact hall
    obtain ⟨p0, t0⟩ := p
    have hp0 : isPositionInGeofence dist p0 gf = true := hall (p0, t0) (by simp)
    have hch : (checkGeofenceViolations dist [gf] none p0 t0).1 =
        [{ geofenceId := gf.id, geofenceName := gf.name, violation := .entered,
           lat := p0.latitude, lng := p0.longitude }] := by
      simp [checkGeofenceViolations, List.filter_cons, hact, geofenceEvents, hp0, wasInside]
    simp only [runGeofencePositions]
    rw [hch]
    have hrest := runGeofence_inside_silent dist gf hact rest (p0, t0) hp0
      (fun q hq => hall q (by simp [hq]))
    have h2 : (checkGeofenceViolations dist [gf] none p0 t0).2 = some (p0, t0) := rfl
    rw [h2, hrest, List.append_nil]
  · intro gf p1 p2 p3 t1 t2 t3 hact h1 h2 h3
    have hc1 : (checkGeofenceViolations dist [gf] none p1 t1).1 =
        [{ geofenceId := gf.id, geofenceName := gf.name, violation := .entered,
           lat := p1.latitude, lng := p1.longitude }] := by
      simp [checkGeofenceViolations, List.filter_cons, hact, geofenceEvents, h1, wasInside]
    have hc2 : (checkGeofenceViolations dist [gf] (some (p1, t1)) p2 t2).1 =
        [{ geofenceId := gf.id, geofenceName := gf.name, violation := .exited,
           lat := p2.latitude, lng := p2.longitude }] := by
      simp [checkGeofenceViolations, List.filter_cons, hact, geofenceEvents, h2, wasInside, h1]
    have hc3 : (checkGeofenceViolations dist [gf] (some (p2, t2)) p3 t3).1 =
        [{ geofenceId := gf.id, geofenceName := gf.name, violation := .entered,
           lat := p3.latitude, lng := p3.longitude }] := by
      simp [checkGeofenceViolations, List.filter_cons, hact, geofenceEvents, h3, wasInside, h2]
    simp only [runGeofencePositions]
    rw [show (checkGeofenceViolations dist [gf] none p1 t1).2 = some (p1, t1) from rfl]
    rw [show (checkGeofenceViolations dist [gf] (some (p1, t1)) p2 t2).2 = some (p2, t2) from rfl]
    rw [hc1, hc2, hc3]
    rfl

/-- An active rectangular geofence covering latitudes and longitudes 0..10. -/
def rectGf : Geofence :=
  { id := "gr", name := "Rect", active := true,
    shape := .rectangle (.val 10) (.val 10) (.val 0) (.val 0) }

/-- A position outside rectGf. -/
def posOut : Position :=
  { latitude := .val 20, longitude := .val 20, altitude := .val 0,
    accuracy := .val 2, timestamp := 0 }

/-- Witness for C2: concrete entered membership, a stay-inside sequence
emitting one entered alert, and an inside/outside/inside sequence. -/
theorem geofence_transition_spec_witness :
    (({ geofenceId := "gr", geofenceName := "Rect", violation := .entered,
        lat := .val 5, lng := .val 5 } : GeofenceEvent) ∈
      (checkGeofenceViolations nanDist [rectGf] none posA 0).1) ∧
    runGeofencePositions nanDist [rectGf] none [(posA, 0), (posA, 1)] =
      [{ geofenceId := rectGf.id, geofenceName := rectGf.name, violation := .entered,
         lat := posA.latitude, lng := posA.longitude }] ∧
    runGeofencePositions nanDist [rectGf] none [(posA, 0), (posOut, 1), (posA, 2)] =
      [{ geofenceId := rectGf.id, geofenceName := rectGf.name, violation := .entered,
         lat := posA.latitude, lng := posA.longitude },
       { geofenceId := rectGf.id, geofenceName := rectGf.name, violation := .exited,
         lat := posOut.latitude, lng := posOut.longitude },
       { geofenceId := rectGf.id, geofenceName := rectGf.name, violation := .entered,
         lat := posA.latitude, lng := posA.longitude }] := by
  refine ⟨?_, ?_, ?_⟩
  · exact ((geofence_transition_spec nanDist).1 [rectGf] none posA 0 _).mpr
      ⟨rectGf, by simp, rfl, Or.inl ⟨by decide, rfl, rfl⟩⟩
  · exact (geofence_transition_spec nanDist).2.1 rectGf (posA, 0) [(posA, 1)] rfl (by decide)
  · exact (geofence_transition_spec nanDist).2.2 rectGf posA posOut posA 0 1 2 rfl
      (by decide) (by decide) (by decide)

/-- The updated alert acknowledgeAlert builds: the acknowledged flag set,
the acknowledger and time recorded, every other field copied by the spread. -/
def ackUpdate (a : EquipmentAlert) (ackBy : String) (now : Int) : EquipmentAlert :=
  { a with acknowledged := true, acknowledgedBy := some ackBy, acknowledgedAt := some now }

/-- JavaScript Map.set never removes a key: any id present before is
present after. -/
theorem mapSet_any_id (l : List EquipmentAlert) (a : EquipmentAlert) (i : String)
    (h : l.any (fun b => b.id = i) = true) :
    (mapSet l a).any (fun b => b.id = i) = true := by
  unfold mapSet
  by_cases hex : l.any (fun b => b.id = a.id) = true
  · rw [if_pos hex]
    rw [List.any_eq_true] at h
    obtain ⟨b, hb, hbi⟩ := h
    rw [List.any_eq_true]
    refine ⟨if b.id = a.id then a else b, List.mem_map.mpr ⟨b, hb, rfl⟩, ?_⟩
    by_cases hba : b.id = a.id
    · simp only [if_pos hba]
      simp only [decide_eq_true_eq] at hbi ⊢
      rw [← hba]
      exact hbi
    · simp only [if_neg hba]
      exact hbi
  · rw [if_neg hex, List.any_append, h]
    rfl

/-- C9: acknowledgeAlert fails with not-found exactly when no alert has
the id, fails with already-acknowledged exactly when the alert exists
acknowledged, and otherwise returns the alert updated with the
acknowledger and time, all other fields unchanged, writing it back under
the same id; failures leave the store unchanged, and neither
acknowledgeAlert nor createAlert ever removes an alert id from the store. -/
theorem acknowledgeAlert_spec :
    ∀ (store : AlertStore) (alertId ackBy : String) (now : Int),
      ((acknowledgeAlert store alertId ackBy now).1 = .error .notFound ↔
        store.alerts.find? (fun a => a.id = alertId) = none) ∧
      (∀ a, store.alerts.find? (fun a => a.id = alertId) = some a →
        (a.acknowledged = true →
          acknowledgeAlert store alertId ackBy now = (.error .alreadyAcknowledged, store)) ∧
        (a.acknowledged = false →
          acknowledgeAlert store alertId ackBy now =
            (.ok (ackUpdate a ackBy now),
             { store with alerts := mapSet store.alerts (ackUpdate a ackBy now) })) ∧
        (∀ (ackBy2 : String) (now2 : Int),
          (ackUpdate a ackBy2 now2).id = a.id ∧
          (ackUpdate a ackBy2 now2).equipmentId = a.equipmentId ∧
          (ackUpdate a ackBy2 now2).type = a.type ∧
          (ackUpdate a ackBy2 now2).severity = a.severity ∧
          (ackUpdate a ackBy2 now2).timestamp = a.timestamp ∧
          (ackUpdate a ackBy2 now2).meta = a.meta)) ∧
      (∀ e, (acknowledgeAlert store alertId ackBy now).1 = .error e →
        (acknowledgeAlert store alertId ackBy now).2 = store) ∧
      (∀ i, store.alerts.any (fun b => b.id = i) = true →
        ((acknowledgeAlert store alertId ackBy now).2.alerts.any (fun b => b.id = i) = true)) ∧
      (∀ (d : AlertData) (n2 : Int) (i : String),
        store.alerts.any (fun b => b.id = i) = true →
        ((createAlert store n2 d).2.alerts.any (fun b => b.id = i) = true)) := by
  intro store alertId ackBy now
  have hcreate : ∀ (d : AlertData) (n2 : Int) (i : String),
      store.alerts.any (fun b => b.id = i) = true →
      ((createAlert store n2 d).2.alerts.any (fun b => b.id = i) = true) := by
    intro d n2 i hi
    exact mapSet_any_id _ _ _ hi
  cases hfind : store.alerts.find? (fun a => a.id = alertId) with
  | none =>
    refine ⟨by simp [acknowledgeAlert, hfind], ?_, ?_, ?_, hcreate⟩
    · intro a ha
      cases ha
    · intro e _
      simp [acknowledgeAlert, hfind]
    · intro i hi
      simpa [acknowledgeAlert, hfind] using hi
  | some a0 =>
    by_cases hack : a0.acknowledged = true
    · refine ⟨by simp [acknowledgeAlert, hfind, hack], ?_, ?_, ?_, hcreate⟩
      · intro a ha
        rw [Option.some.injEq] at ha
        subst ha
        exact ⟨fun _ => by simp [acknowledgeAlert, hfind, hack],
          fun hf => absurd hack (by simp [hf]),
          fun _ _ => ⟨rfl, rfl, rfl, rfl, rfl, rfl⟩⟩
      · intro e _
        simp [acknowledgeAlert, hfind, hack]
      · intro i hi
        simpa [acknowledgeAlert, hfind, hack] using hi
    · refine ⟨by simp [acknowledgeAlert, hfind, hack], ?_, ?_, ?_, hcreate⟩
      · intro a ha
        rw [Option.some.injEq] at ha
        subst ha
        exact ⟨fun hf => absurd hf hack,
          fun _ => by simp [acknowledgeAlert, hfind, hack, ackUpdate],
          fun _ _ => ⟨rfl, rfl, rfl, rfl, rfl, rfl⟩⟩
      · intro e he
        simp [acknowledgeAlert, hfind, hack] at he
      · intro i hi
        simp only [acknowledgeAlert, hfind, hack]
        simp only [Bool.false_eq_true, if_false]
        exact mapSet_any_id _ _ _ hi

/-- A concrete acknowledged alert. -/
def ackedAlert : EquipmentAlert :=
  { id := "alert_1", equipmentId := "E1", type := .speedLimit, severity := .high,
    timestamp := 0, acknowledged := true, acknowledgedBy := some ("op"),
    acknowledgedAt := some 1, meta := .speed "r" "n" (.val 9) (.val 5) }

/-- A concrete unacknowledged alert. -/
def openAlert : EquipmentAlert :=
  { id := "alert_2", equipmentId := "E2", type := .connectionLost, severity := .medium,
    timestamp := 0, acknowledged := false, acknowledgedBy := none,
    acknowledgedAt := none, meta := .accuracyMeta "r2" "n2" (.val 12) (.val 10) }

/-- A concrete alert store. -/
def ackStore : AlertStore :=
  { alerts := [ackedAlert, openAlert], alertIdCounter := 3 }

/-- Concrete alert data for the createAlert instance. -/
def someData : AlertData :=
  { equipmentId := "E3", type := .speedLimit, severity := .low,
    meta := .speed "r" "n" (.val 1) (.val 2) }

/-- Witness for C9 at the concrete store: missing id, already-acknowledged
id, successful acknowledgement, and id preservation by createAlert. -/
theorem acknowledgeAlert_spec_witness :
    ((acknowledgeAlert ackStore ("missing") ("bob") 5).1 = .error .notFound) ∧
    (acknowledgeAlert ackStore ("alert_1") ("bob") 5 =
      (.error .alreadyAcknowledged, ackStore)) ∧
    (acknowledgeAlert ackStore ("alert_2") ("bob") 5 =
      (.ok (ackUpdate openAlert ("bob") 5),
       { ackStore with alerts := mapSet ackStore.alerts (ackUpdate openAlert ("bob") 5) })) ∧
    ((createAlert ackStore 7 someData).2.alerts.any (fun b => b.id = "alert_1") = true) :=
  ⟨(acknowledgeAlert_spec ackStore ("missing") ("bob") 5).1.mpr (by decide),
   ((acknowledgeAlert_spec ackStore ("alert_1") ("bob") 5).2.1 ackedAlert (by decide)).1 rfl,
   ((acknowledgeAlert_spec ackStore ("alert_2") ("bob") 5).2.1 openAlert (by decide)).2.1 rfl,
   (acknowledgeAlert_spec ackStore ("x") ("y") 0).2.2.2.2 someData 7 ("alert_1") (by decide)⟩

/-- The speed branch never produces an operating-hours alert. -/
theorem speedBranch_filter_hours (rule : MonitoringRule) (eqid : String) (pos : Position)
    (last : Option (Position × Int)) :
    (speedBranch rule eqid pos last).filter isHoursAlert = [] := by
  unfold speedBranch
  split
  · rfl
  · split
    · rfl
    · split
      · dsimp only
        split
        · rfl
        · rfl
      · rfl

/-- The accuracy branch never produces an operating-hours alert. -/
theorem accuracyBranch_filter_hours (rule : MonitoringRule) (eqid : String) (pos : Position) :
    (accuracyBranch rule eqid pos).filter isHoursAlert = [] := by
  unfold accuracyBranch
  split
  · rfl
  · split
    · rfl
    · rfl

/-- The accuracy branch never produces a speed alert. -/
theorem accuracyBranch_filter_speed (rule : MonitoringRule) (eqid : String) (pos : Position) :
    (accuracyBranch rule eqid pos).filter isSpeedAlert = [] := by
  unfold accuracyBranch
  split
  · rfl
  · split
    · rfl
    · rfl

/-- The operating-hours branch never produces a speed alert. -/
theorem hoursBranch_filter_speed (rule : MonitoringRule) (eqid : String) (pos : Position) :
    (hoursBranch rule eqid pos).filter isSpeedAlert = [] := by
  unfold hoursBranch
  split
  · rfl
  · dsimp only
    split
    · rfl
    · split
      · rfl
      · rfl

/-- Malformed operating-hours strings make the hours branch yield nothing. -/
theorem hoursBranch_malformed (rule : MonitoringRule) (eqid : String) (pos : Position)
    (startS endS : String)
    (hoh : rule.conditions.operatingHours = some (startS, endS))
    (hbad : clockPartsOk startS = false ∨ clockPartsOk endS = false) :
    hoursBranch rule eqid pos = [] := by
  unfold hoursBranch
  rw [hoh]
  have hcond : (!partsOk (parseClock startS) || !partsOk (parseClock endS)) = true := by
    rcases hbad with hb | hb <;> simp [clockPartsOk] at hb <;> simp [hb]
  simp only [hcond, if_true]

/-- checkMonitoringRules distributes over list append. -/
theorem checkMonitoringRules_append (xs ys : List MonitoringRule) (eqid : String)
    (pos : Position) (last : Option (Position × Int)) :
    checkMonitoringRules (xs ++ ys) eqid pos last =
      checkMonitoringRules xs eqid pos last ++ checkMonitoringRules ys eqid pos last := by
  simp [checkMonitoringRules, List.filter_append]

/-- checkMonitoringRules on a cons evaluates the head rule when it applies
and always continues with the remaining rules. -/
theorem checkMonitoringRules_cons (r : MonitoringRule) (rs : List MonitoringRule)
    (eqid : String) (pos : Position) (last : Option (Position × Int)) :
    checkMonitoringRules (r :: rs) eqid pos last =
      (if ruleApplies r eqid then evaluateRule r eqid pos last else []) ++
      checkMonitoringRules rs eqid pos last := by
  by_cases happ : ruleApplies r eqid = true
  · simp [checkMonitoringRules, List.filter_cons, happ]
  · simp [checkMonitoringRules, List.filter_cons, happ]

/-- C8: a rule whose operating-hours start or end string does not parse as
an HH:MM pair of numbers emits no operating-hours alert, and evaluation of
the other rules in the list proceeds unaffected. -/
theorem malformed_hours_rule_skipped :
    ∀ (rs1 rs2 : List MonitoringRule) (rule : MonitoringRule) (eqid : String)
      (pos : Position) (last : Option (Position × Int)) (startS endS : String),
      rule.conditions.operatingHours = some (startS, endS) →
      (clockPartsOk startS = false ∨ clockPartsOk endS = false) →
      ((evaluateRule rule eqid pos last).filter isHoursAlert = [] ∧
       checkMonitoringRules (rs1 ++ rule :: rs2) eqid pos last =
         checkMonitoringRules rs1 eqid pos last ++
         (if ruleApplies rule eqid then evaluateRule rule eqid pos last else []) ++
         checkMonitoringRules rs2 eqid pos last) := by
  intro rs1 rs2 rule eqid pos last startS endS hoh hbad
  constructor
  · unfold evaluateRule
    rw [List.filter_append, List.filter_append, speedBranch_filter_hours,
      accuracyBranch_filter_hours, hoursBranch_malformed rule eqid pos startS endS hoh hbad]
    rfl
  · rw [checkMonitoringRules_append, checkMonitoringRules_cons, List.append_assoc]

/-- A monitoring rule with malformed operating hours. -/
def badHoursRule : MonitoringRule :=
  { id := "rh", name := "Hours", conditions := { operatingHours := some ("ab:cd", "17:00") },
    alertType := .unauthorizedUse, severity := .low, enabled := true }

/-- A monitoring rule whose accuracy condition fires on posA. -/
def accRule : MonitoringRule :=
  { id := "ra", name := "Accuracy", conditions := { minAccuracy := some (.val 1) },
    alertType := .connectionLost, severity := .medium, enabled := true }

/-- Witness for C8: the malformed rule emits no hours alert and the
surrounding rules are still evaluated. -/
theorem malformed_hours_rule_skipped_witness :
    ((evaluateRule badHoursRule ("E1") posA none).filter isHoursAlert = []) ∧
    checkMonitoringRules [accRule, badHoursRule, accRule] ("E1") posA none =
      checkMonitoringRules [accRule] ("E1") posA none ++
      (if ruleApplies badHoursRule ("E1") then evaluateRule badHoursRule ("E1") posA none
       else []) ++
      checkMonitoringRules [accRule] ("E1") posA none :=
  malformed_hours_rule_skipped [accRule] [accRule] badHoursRule ("E1") posA none
    ("ab:cd") ("17:00") rfl (Or.inl (by decide))

/-- Membership characterization of the speed branch. -/
theorem mem_speedBranch_iff (rule : MonitoringRule) (eqid : String) (pos : Position)
    (last : Option (Position × Int)) (a : AlertData) :
    a ∈ speedBranch rule eqid pos last ↔
      ∃ ms lp lts, rule.conditions.maxSpeed = some ms ∧ last = some (lp, lts) ∧
        0 < ruleTimeDiff pos.timestamp lts ∧
        JsNum.gt (.val (simplifiedSpeed pos lp lts)) ms = true ∧
        a = { equipmentId := eqid, type := rule.alertType, severity := rule.severity,
              meta := .speed rule.id rule.name (.val (simplifiedSpeed pos lp lts)) ms } := by
  unfold speedBranch
  rcases hms : rule.conditions.maxSpeed with _ | ms
  · simp [hms]
  · rcases hlast : last with _ | ⟨lp, lts⟩
    · simp [hms, hlast]
    · simp only [hms, hlast]
      by_cases htd : 0 < ruleTimeDiff pos.timestamp lts
      · by_cases hgt : JsNum.gt (.val (simplifiedSpeed pos lp lts)) ms = true
        · constructor
          · intro h
            rw [if_pos htd] at h
            rw [if_pos hgt, List.mem_singleton] at h
            exact ⟨ms, lp, lts, rfl, rfl, htd, hgt, h⟩
          · rintro ⟨ms1, lp1, lts1, hm, hl, _, _, ha⟩
            rw [Option.some.injEq] at hm hl
            injection hl with hlp hlts
            subst hm
            subst hlp
            subst hlts
            rw [if_pos htd]
            rw [if_pos hgt, List.mem_singleton]
            exact ha
        · simp [htd, hgt]
      · simp [htd]

/-- C1 (amended): a speed alert is emitted exactly when the rule has a
maxSpeed condition, a last position is stored, the wall-clock time
difference is positive and the simplified speed (100 if the coordinates
differ, else 0, divided by the time difference in seconds) exceeds the
limit; the alert carries the rule severity and the simplified speed as
actualSpeed.  In particular, for a movement with differing coordinates and
a 10-second gap against a 25 m/s limit (the 1000 m in 10 s scenario of the
original claim), no speed alert is emitted, since the simplified speed is
10 m/s. -/
theorem speedRule_alert_iff_simplified :
    (∀ (rule : MonitoringRule) (eqid : String) (pos : Position)
        (last : Option (Position × Int)) (a : AlertData),
        (a ∈ evaluateRule rule eqid pos last ∧ isSpeedAlert a = true) ↔
          (∃ ms lp lts, rule.conditions.maxSpeed = some ms ∧ last = some (lp, lts) ∧
            0 < ruleTimeDiff pos.timestamp lts ∧
            JsNum.gt (.val (simplifiedSpeed pos lp lts)) ms = true ∧
            a = { equipmentId := eqid, type := rule.alertType, severity := rule.severity,
                  meta := .speed rule.id rule.name (.val (simplifiedSpeed pos lp lts)) ms })) ∧
    (∀ (rule : MonitoringRule) (eqid : String) (pos : Position) (lp : Position) (lts : Int),
        rule.conditions.maxSpeed = some (.val 25) →
        pos.timestamp - lts = 10000 →
        (JsNum.sne pos.latitude lp.latitude || JsNum.sne pos.longitude lp.longitude) = true →
        (evaluateRule rule eqid pos (some (lp, lts))).filter isSpeedAlert = []) := by
  constructor
  · intro rule eqid pos last a
    constructor
    · rintro ⟨hmem, hsp⟩
      unfold evaluateRule at hmem
      rw [List.mem_append, List.mem_append] at hmem
      rcases hmem with (hsb | hab) | hhb
      · exact (mem_speedBranch_iff rule eqid pos last a).mp hsb
      · exfalso
        have hmf : a ∈ (accuracyBranch rule eqid pos).filter isSpeedAlert :=
          List.mem_filter.mpr ⟨hab, hsp⟩
        rw [accuracyBranch_filter_speed] at hmf
        exact absurd hmf (List.not_mem_nil a)
      · exfalso
        have hmf : a ∈ (hoursBranch rule eqid pos).filter isSpeedAlert :=
          List.mem_filter.mpr ⟨hhb, hsp⟩
        rw [hoursBranch_filter_speed] at hmf
        exact absurd hmf (List.not_mem_nil a)
    · intro hex
      have hsb := (mem_speedBranch_iff rule eqid pos last a).mpr hex
      constructor
      · unfold evaluateRule
        rw [List.mem_append, List.mem_append]
        exact Or.inl (Or.inl hsb)
      · obtain ⟨ms, lp, lts, _, _, _, _, ha⟩ := hex
        rw [ha]
        rfl
  · intro rule eqid pos lp lts hms htd hsne
    have hrd : ruleTimeDiff pos.timestamp lts = 10 := by
      unfold ruleTimeDiff
      rw [htd]
      norm_num
    have hspd : simplifiedSpeed pos lp lts = 10 := by
      unfold simplifiedSpeed simplifiedDistance
      rw [hrd, if_pos hsne]
      norm_num
    unfold evaluateRule
    rw [List.filter_append, List.filter_append, accuracyBranch_filter_speed,
      hoursBranch_filter_speed]
    have hsbf : (speedBranch rule eqid pos (some (lp, lts))).filter isSpeedAlert = [] := by
      unfold speedBranch
      rw [hms]
      have h1 : 0 < ruleTimeDiff pos.timestamp lts := by
        rw [hrd]
        norm_num
      have h2 : ¬ (JsNum.gt (.val (simplifiedSpeed pos lp lts)) (.val 25) = true) := by
        rw [hspd]
        decide
      simp only [if_pos h1, if_neg h2]
      rfl
    rw [hsbf]
    rfl

/-- The default speed rule of the source (maxSpeed 25 m/s). -/
def speedRule25 : MonitoringRule :=
  { id := "default_speed_limit", name := "General Speed Limit",
    conditions := { maxSpeed := some (.val 25) },
    alertType := .speedLimit, severity := .high, enabled := true }

/-- The prior position of the 1000-meter scenario, stored at wall-clock 0. -/
def prevKm : Position :=
  { latitude := .val 0, longitude := .val 0, altitude := .val 0,
    accuracy := .val 2, timestamp := 0 }

/-- A position about 1000 m north of prevKm (latitude 0.009 degrees), with
a timestamp 10 seconds later. -/
def farPos : Position :=
  { latitude := .val (9 / 1000), longitude := .val 0, altitude := .val 0,
    accuracy := .val 2, timestamp := 10000 }

/-- Counterexample to C1 as stated: equipment moving about 1000 m in 10 s
against the enabled 25 m/s rule; the claim expects exactly one speed-limit
alert with actualSpeed about 100, but rule evaluation emits no alert at
all (the simplified distance is 100 m, so the computed speed is 10 m/s,
below the limit). -/
theorem speedRule_thousand_meters_counterexample :
    checkMonitoringRules [speedRule25] ("E1") farPos (some (prevKm, 0)) = [] := by
  norm_num [checkMonitoringRules, evaluateRule, speedBranch, accuracyBranch, hoursBranch,
    ruleApplies, speedRule25, farPos, prevKm, simplifiedSpeed, simplifiedDistance,
    ruleTimeDiff, JsNum.sne, JsNum.seq, JsNum.gt, JsNum.lt]

/-- The 1000-meter position reached in one second instead of ten: the
simplified speed is 100 m/s, above the limit. -/
def fastPos : Position :=
  { latitude := .val (9 / 1000), longitude := .val 0, altitude := .val 0,
    accuracy := .val 2, timestamp := 1000 }

/-- The speed alert emitted at fastPos. -/
def fastAlert : AlertData :=
  { equipmentId := "E1", type := .speedLimit, severity := .high,
    meta := .speed ("default_speed_limit") ("General Speed Limit")
      (.val (simplifiedSpeed fastPos prevKm 0)) (.val 25) }

/-- Witness for C1: the alert fires at the one-second instance and does
not fire at the ten-second instance. -/
theorem speedRule_alert_iff_simplified_witness :
    (fastAlert ∈ evaluateRule speedRule25 ("E1") fastPos (some (prevKm, 0)) ∧
      isSpeedAlert fastAlert = true) ∧
    (evaluateRule speedRule25 ("E1") farPos (some (prevKm, 0))).filter isSpeedAlert = [] :=
  ⟨(speedRule_alert_iff_simplified.1 speedRule25 ("E1") fastPos (some (prevKm, 0))
      fastAlert).mpr
    ⟨.val 25, prevKm, 0, rfl, rfl,
      by norm_num [ruleTimeDiff, fastPos],
      by norm_num [simplifiedSpeed, simplifiedDistance, ruleTimeDiff, fastPos, prevKm,
        JsNum.sne, JsNum.seq, JsNum.gt, JsNum.lt],
      rfl⟩,
   speedRule_alert_iff_simplified.2 speedRule25 ("E1") farPos prevKm 0 rfl (by decide)
     (by norm_num [farPos, prevKm, JsNum.sne, JsNum.seq])⟩

end EquipmentTracker
